import Mathlib

/-!
Shallow embedding of the Participation Reconciliation & Integrity Engine of
the UniPass backend (`app/services/reconciliation_service.py`,
`app/services/fraud_detection_service.py`, `app/routes/ps1.py`).

The database session is modelled as explicit lists of rows; SQLAlchemy
`filter_by(...).first()` becomes `List.find?` and `.all()` becomes
`List.filter`.  `datetime` values are modelled as `Nat` timestamps (seconds);
truncation to a calendar minute is division by 60.
-/

namespace UniPass

/-- Row of the `tickets` table (registration), `app/models/ticket.py`. -/
structure Ticket where
  id : Nat
  event_id : Nat
  student_prn : String
  deriving Repr, DecidableEq

/-- Row of the `attendance` table, `app/models/attendance.py`. -/
structure Attendance where
  id : Nat
  ticket_id : Nat
  event_id : Nat
  student_prn : String
  scanned_at : Option Nat
  day_number : Option Nat
  scan_source : String
  scanner_id : Option Nat
  invalidated : Bool
  deriving Repr, DecidableEq

/-- Row of the `certificates` table, `app/models/certificate.py`
(`student_prn` is nullable for role-based certificates). -/
structure Certificate where
  id : Nat
  event_id : Nat
  student_prn : Option String
  certificate_id : String
  issued_at : Option Nat
  role_type : String
  revoked : Bool
  revoked_at : Option Nat
  revoked_by : Option Nat
  revocation_reason : Option String
  deriving Repr, DecidableEq

/-- Row of the `events` table (only the fields the engine reads). -/
structure Event where
  id : Nat
  total_days : Nat
  deriving Repr, DecidableEq

/-- Row of the `audit_logs` table, `app/models/audit_log.py`; the JSON
`details` payload is flattened to the keys the engine writes. -/
structure AuditLog where
  event_id : Nat
  user_id : Nat
  action_type : String
  detail_student_prn : Option String
  detail_reason : Option String
  detail_certificate_id : Option String
  deriving Repr, DecidableEq

/-- The transactional store: one list per table. -/
structure DB where
  events : List Event
  tickets : List Ticket
  attendances : List Attendance
  certificates : List Certificate
  audit_logs : List AuditLog
  deriving Repr, DecidableEq

/-- `db.query(Ticket).filter_by(event_id=…, student_prn=…).first()`. -/
def ticketFor (db : DB) (event_id : Nat) (student_prn : String) : Option Ticket :=
  db.tickets.find? (fun t => t.event_id == event_id && t.student_prn == student_prn)

/-- Predicate of the non-invalidated attendance query for one (event, student). -/
def attActiveP (event_id : Nat) (student_prn : String) (a : Attendance) : Bool :=
  a.event_id == event_id && a.student_prn == student_prn && a.invalidated == false

/-- `db.query(Attendance).filter_by(event_id=…, student_prn=…, invalidated=False).all()`. -/
def activeAttendanceFor (db : DB) (event_id : Nat) (student_prn : String) : List Attendance :=
  db.attendances.filter (attActiveP event_id student_prn)

/-- `db.query(Certificate).filter_by(event_id=…, student_prn=…).first()`. -/
def certificateFor (db : DB) (event_id : Nat) (student_prn : String) : Option Certificate :=
  db.certificates.find? (fun c => c.event_id == event_id && c.student_prn == some student_prn)

/-- `db.query(Event).filter_by(id=…).first()`. -/
def eventFor (db : DB) (event_id : Nat) : Option Event :=
  db.events.find? (fun e => e.id == event_id)

/-- Python truthiness of `certificate and certificate.revoked`. -/
def certIsRevoked : Option Certificate → Bool
  | some c => c.revoked
  | none => false

/-- Python truthiness of `certificate and not certificate.revoked`. -/
def certIsActive : Option Certificate → Bool
  | some c => !c.revoked
  | none => false

/-- `len(set([a.day_number for a in attendance]))`. -/
def distinctDayCount (attendance : List Attendance) : Nat :=
  ((attendance.map (fun a => a.day_number)).dedup).length

/-- `ReconciliationService._compute_status`
(`reconciliation_service.py:120-155`). -/
def compute_status (ticket : Option Ticket) (attendance : List Attendance)
    (certificate : Option Certificate) (event : Option Event) : String :=
  if certIsRevoked certificate then "INVALIDATED"
  else if certIsActive certificate then "CERTIFIED"
  else if !attendance.isEmpty then
    match event with
    | some ev =>
      if ev.total_days > 1 then
        if distinctDayCount attendance ≥ ev.total_days then "ATTENDED_NO_CERTIFICATE"
        else "ATTENDED_NO_CERTIFICATE"
      else "ATTENDED_NO_CERTIFICATE"
    | none => "ATTENDED_NO_CERTIFICATE"
  else if ticket.isSome then "REGISTERED_ONLY"
  else "UNKNOWN"

/-- Derived conflict payload (`type`/`severity`/`message`/`resolution` dict). -/
structure Conflict where
  type : String
  severity : String
  message : String
  resolution : String
  deriving Repr, DecidableEq

/-- Python `att.day_number or 1` (both `None` and `0` are falsy). -/
def dayOr1 (a : Attendance) : Nat :=
  match a.day_number with
  | none => 1
  | some 0 => 1
  | some d => d

/-- First-occurrence-ordered distinct elements, as Python dict keys. -/
def distinctFirst {α : Type} [DecidableEq α] (l : List α) : List α :=
  l.foldl (fun acc x => if x ∈ acc then acc else acc ++ [x]) []

/-- The `day_counts` loop of conflict rule 4: for each day key (in first
occurrence order), a MEDIUM conflict when more than one scan shares it. -/
def multiScanConflicts (attendance : List Attendance) : List Conflict :=
  (distinctFirst (attendance.map dayOr1)).filterMap (fun day =>
    let count := (attendance.map dayOr1).count day
    if count > 1 then
      some { type := "MULTIPLE_SCANS_SAME_DAY", severity := "MEDIUM",
             message := s!"Multiple scans detected on day {day} ({count} scans)",
             resolution := "Review scan logs for duplicate entries" }
    else none)

/-- `ReconciliationService._detect_conflicts`
(`reconciliation_service.py:157-224`). -/
def detect_conflicts (event_id : Nat) (student_prn : String) (ticket : Option Ticket)
    (attendance : List Attendance) (certificate : Option Certificate) : List Conflict :=
  let c1 :=
    if certIsActive certificate && attendance.isEmpty then
      [{ type := "CERTIFICATE_WITHOUT_ATTENDANCE", severity := "HIGH",
         message := "Certificate issued but no attendance record found",
         resolution := "Verify if attendance was recorded manually" }]
    else []
  let c2 :=
    if certIsActive certificate && ticket.isNone then
      [{ type := "CERTIFICATE_WITHOUT_REGISTRATION", severity := "MEDIUM",
         message := "Certificate issued but no registration found",
         resolution := "Check if student registered via alternate method" }]
    else []
  let c3 :=
    if !attendance.isEmpty && ticket.isNone then
      [{ type := "ATTENDANCE_WITHOUT_REGISTRATION", severity := "LOW",
         message := "Attendance recorded but no registration found",
         resolution := "May be walk-in registration or manual entry" }]
    else []
  let c4 := if !attendance.isEmpty then multiScanConflicts attendance else []
  let c5 :=
    if !attendance.isEmpty
        && !(attendance.filter (fun a => a.scan_source == "qr_scan")).isEmpty
        && !(attendance.filter (fun a => a.scan_source == "admin_override")).isEmpty then
      [{ type := "ADMIN_OVERRIDE_CONFLICT", severity := "LOW",
         message := "Both QR scan and admin override recorded",
         resolution := "Verify which record is more reliable" }]
    else []
  c1 ++ c2 ++ c3 ++ c4 ++ c5

/-- One step of the conflict-penalty loop of `_compute_trust_score`. -/
def severityPenalty (s : Int) (c : Conflict) : Int :=
  if c.severity == "HIGH" then s - 20
  else if c.severity == "MEDIUM" then s - 10
  else s - 5

/-- `ReconciliationService._compute_trust_score`
(`reconciliation_service.py:226-260`); `certificate` is received but unused,
as in the source. -/
def compute_trust_score (ticket : Option Ticket) (attendance : List Attendance)
    (certificate : Option Certificate) (conflicts : List Conflict) : Int :=
  let score : Int := 100
  let score := if ticket.isNone then score - 10 else score
  let score := if attendance.isEmpty then score - 30 else score
  let score := conflicts.foldl severityPenalty score
  let score :=
    if !attendance.isEmpty then
      score + min (((attendance.filter (fun a => a.scan_source == "qr_scan")).length : Int) * 5) 20
    else score
  max 0 (min 100 score)

/-- The dict returned by `get_canonical_status` (`raw_evidence` flattened). -/
structure StatusResult where
  canonical_status : String
  has_registration : Bool
  has_attendance : Bool
  has_certificate : Bool
  attendance_count : Nat
  days_attended : Nat
  total_days_required : Nat
  certificate_revoked : Bool
  conflicts : List Conflict
  trust_score : Int
  raw_ticket_id : Option Nat
  raw_attendance_ids : List Nat
  raw_certificate_id : Option String
  deriving Repr, DecidableEq

/-- `ReconciliationService.get_canonical_status`
(`reconciliation_service.py:49-118`). -/
def get_canonical_status (db : DB) (event_id : Nat) (student_prn : String) : StatusResult :=
  let ticket := ticketFor db event_id student_prn
  let attendance := activeAttendanceFor db event_id student_prn
  let certificate := certificateFor db event_id student_prn
  let event := eventFor db event_id
  let conflicts := detect_conflicts event_id student_prn ticket attendance certificate
  { canonical_status := compute_status ticket attendance certificate event
    has_registration := ticket.isSome
    has_attendance := !attendance.isEmpty
    has_certificate := certIsActive certificate
    attendance_count := attendance.length
    days_attended := if attendance.isEmpty then 0 else distinctDayCount attendance
    total_days_required := (event.map (fun e => e.total_days)).getD 1
    certificate_revoked := certIsRevoked certificate
    conflicts := conflicts
    trust_score := compute_trust_score ticket attendance certificate conflicts
    raw_ticket_id := ticket.map (fun t => t.id)
    raw_attendance_ids := attendance.map (fun a => a.id)
    raw_certificate_id := certificate.map (fun c => c.certificate_id) }

/-- Fraud alert payload (`fraud_detection_service.py`); the heterogeneous
`evidence` dict is flattened to the keys the two embedded rules write. -/
structure FraudAlert where
  type : String
  severity : String
  student_prn : String
  description : String
  certificate_ids : List String
  minute : Option Nat
  record_count : Nat
  deriving Repr, DecidableEq

/-- The rows of the GROUP BY query of `_detect_duplicate_certificates`:
certificates of the event with a non-null `student_prn`. -/
def eventCertsWithStudent (db : DB) (event_id : Nat) : List Certificate :=
  db.certificates.filter (fun c => c.event_id == event_id && c.student_prn.isSome)

/-- `db.query(Certificate).filter_by(event_id=…, student_prn=…).all()`. -/
def certsOfStudent (db : DB) (event_id : Nat) (p : String) : List Certificate :=
  db.certificates.filter (fun c => c.event_id == event_id && c.student_prn == some p)

/-- `cert_count` of the GROUP BY query for one student. -/
def dupCount (db : DB) (event_id : Nat) (p : String) : Nat :=
  ((eventCertsWithStudent db event_id).filterMap (fun c => c.student_prn)).count p

/-- `FraudDetectionService._detect_duplicate_certificates`
(`fraud_detection_service.py:105-140`): groups event certificates with a
non-null student by student (no `revoked` or `role_type` filter) and alerts
on any group of more than one. -/
def detect_duplicate_certificates (db : DB) (event_id : Nat) : List FraudAlert :=
  ((distinctFirst ((eventCertsWithStudent db event_id).filterMap (fun c => c.student_prn))).filter
      (fun p => dupCount db event_id p > 1)).map (fun p =>
    { type := "DUPLICATE_CERTIFICATE", severity := "HIGH", student_prn := p,
      description := s!"Student has {dupCount db event_id p} certificates for same event",
      certificate_ids := (certsOfStudent db event_id p).map (fun c => c.certificate_id),
      minute := none,
      record_count := dupCount db event_id p })

/-- `datetime.replace(second=0, microsecond=0)` on a seconds timestamp. -/
def minuteKey (t : Nat) : Nat := t / 60

/-- The attendance rows scanned by `_detect_bulk_anomalies`
(`scan_source = bulk_upload`; `invalidated` is not filtered). -/
def bulkUploadsFor (db : DB) (event_id : Nat) : List Attendance :=
  db.attendances.filter (fun a => a.event_id == event_id && a.scan_source == "bulk_upload")

/-- The `uploads_by_minute` bucket for one minute key. -/
def minuteBucket (l : List Attendance) (m : Nat) : List Attendance :=
  l.filter (fun a => a.scanned_at.map minuteKey == some m)

/-- `FraudDetectionService._detect_bulk_anomalies`
(`fraud_detection_service.py:341-375`): groups `bulk_upload` attendance by
calendar minute (rows with a null `scanned_at` are skipped) and emits a LOW
alert for each bucket of more than 100 rows. -/
def detect_bulk_anomalies (db : DB) (event_id : Nat) : List FraudAlert :=
  (distinctFirst ((bulkUploadsFor db event_id).filterMap
      (fun a => a.scanned_at.map minuteKey))).filterMap (fun m =>
    let uploads := minuteBucket (bulkUploadsFor db event_id) m
    if uploads.length > 100 then
      some { type := "BULK_UPLOAD_ANOMALY", severity := "LOW", student_prn := "N/A",
             description := s!"Bulk upload of {uploads.length} records in 1 minute",
             certificate_ids := [],
             minute := some m,
             record_count := uploads.length }
    else none)

/-- Response of the revoke route (the fields that depend on the call). -/
structure RevokeResponse where
  certificate_id : String
  revoked_at : Option Nat
  reason : String
  deriving Repr, DecidableEq

/-- In-place mutation of the ORM object returned by
`filter_by(certificate_id=…).first()`: update the first matching row. -/
def revokeFirstByCid (certs : List Certificate) (cid : String) (now actor : Nat)
    (reason : String) : List Certificate :=
  match certs with
  | [] => []
  | c :: rest =>
    if c.certificate_id == cid then
      { c with revoked := true, revoked_at := some now, revoked_by := some actor,
               revocation_reason := some reason } :: rest
    else c :: revokeFirstByCid rest cid now actor reason

/-- The `revoke_certificate` route (`ps1.py:245-304`), after the permission
check; returns the (possibly unchanged) store plus the outcome.  The two
`HTTPException`s are the error strings. -/
def revoke_certificate (db : DB) (certificate_id : String) (reason : String)
    (actor : Nat) (now : Nat) : DB × Except String RevokeResponse :=
  match db.certificates.find? (fun c => c.certificate_id == certificate_id) with
  | none => (db, Except.error "Certificate not found")
  | some c =>
    if c.revoked then (db, Except.error "Certificate is already revoked")
    else
      let db' : DB :=
        { db with
          certificates := revokeFirstByCid db.certificates certificate_id now actor reason,
          audit_logs := db.audit_logs ++
            [{ event_id := c.event_id, user_id := actor,
               action_type := "certificate_revoked",
               detail_student_prn := c.student_prn,
               detail_reason := some reason,
               detail_certificate_id := some c.certificate_id }] }
      (db', Except.ok { certificate_id := certificate_id, revoked_at := some now,
                        reason := reason })

/-- One item of a `BulkResolutionRequest` (`ps1.py:97-101`). -/
structure BulkAction where
  student_prn : String
  action : String
  reason : Option String
  deriving Repr, DecidableEq

/-- One entry of the `details` list of the bulk-resolution result. -/
structure ResolutionDetail where
  student_prn : String
  action : Option String
  status : String
  reason : Option String
  deriving Repr, DecidableEq

/-- The mutable `results` counters of `bulk_resolve_conflicts`. -/
structure BulkCounters where
  successful : Nat
  failed : Nat
  details : List ResolutionDetail
  deriving Repr, DecidableEq

/-- `BulkResolutionResponse` (`ps1.py:109-114`). -/
structure BulkResolutionResponse where
  total_actions : Nat
  successful : Nat
  failed : Nat
  details : List ResolutionDetail
  deriving Repr, DecidableEq

/-- Python `action_item.reason or "Bulk conflict resolution"` (`None` and the
empty string are falsy). -/
def effectiveReason (r : Option String) : String :=
  match r with
  | none => "Bulk conflict resolution"
  | some s => if s == "" then "Bulk conflict resolution" else s

/-- Predicate of the active-certificate query of the `revoke_certificate`
branch (`filter_by(event_id=…, student_prn=…, revoked=False)`). -/
def certActiveP (event_id : Nat) (p : String) (c : Certificate) : Bool :=
  c.event_id == event_id && c.student_prn == some p && c.revoked == false

/-- In-place mutation of the first row matching `certActiveP`. -/
def revokeFirstActive (certs : List Certificate) (event_id : Nat) (p : String)
    (now actor : Nat) (reason : String) : List Certificate :=
  match certs with
  | [] => []
  | c :: rest =>
    if certActiveP event_id p c then
      { c with revoked := true, revoked_at := some now, revoked_by := some actor,
               revocation_reason := some reason } :: rest
    else c :: revokeFirstActive rest event_id p now actor reason

/-- Autoincrement id for a newly inserted attendance row (modelling choice;
no claim depends on ids). -/
def newAttendanceId (db : DB) : Nat := db.attendances.length

/-- One iteration of the action loop of `bulk_resolve_conflicts`
(`ps1.py:1064-1160`), threading the store and the `results` counters. -/
def processAction (event_id : Nat) (actor : Nat) (now : Nat)
    (st : DB × BulkCounters) (item : BulkAction) : DB × BulkCounters :=
  let db := st.1
  let res := st.2
  let reason := effectiveReason item.reason
  if item.action == "add_attendance" then
    match ticketFor db event_id item.student_prn with
    | none =>
      (db, { res with
             failed := res.failed + 1,
             details := res.details ++
               [{ student_prn := item.student_prn, action := some item.action,
                  status := "failed", reason := some "No registration found" }] })
    | some ticket =>
      match db.attendances.find? (attActiveP event_id item.student_prn) with
      | some _ => (db, { res with successful := res.successful + 1 })
      | none =>
        let att : Attendance :=
          { id := newAttendanceId db, ticket_id := ticket.id, event_id := event_id,
            student_prn := item.student_prn, scanned_at := some now,
            day_number := some 1, scan_source := "admin_override",
            scanner_id := some actor, invalidated := false }
        let db' : DB :=
          { db with
            attendances := db.attendances ++ [att],
            audit_logs := db.audit_logs ++
              [{ event_id := event_id, user_id := actor,
                 action_type := "bulk_attendance_added",
                 detail_student_prn := some item.student_prn,
                 detail_reason := some reason, detail_certificate_id := none }] }
        (db', { res with
                successful := res.successful + 1,
                details := res.details ++
                  [{ student_prn := item.student_prn, action := some item.action,
                     status := "success", reason := none }] })
  else if item.action == "revoke_certificate" then
    match db.certificates.find? (certActiveP event_id item.student_prn) with
    | none => (db, { res with failed := res.failed + 1 })
    | some _ =>
      let db' : DB :=
        { db with
          certificates := revokeFirstActive db.certificates event_id item.student_prn
            now actor reason,
          audit_logs := db.audit_logs ++
            [{ event_id := event_id, user_id := actor,
               action_type := "bulk_certificate_revoked",
               detail_student_prn := some item.student_prn,
               detail_reason := some reason, detail_certificate_id := none }] }
      (db', { res with
              successful := res.successful + 1,
              details := res.details ++
                [{ student_prn := item.student_prn, action := some item.action,
                   status := "success", reason := none }] })
  else if item.action == "ignore" || item.action == "manual_review" then
    ({ db with
       audit_logs := db.audit_logs ++
         [{ event_id := event_id, user_id := actor,
            action_type := "bulk_" ++ item.action,
            detail_student_prn := some item.student_prn,
            detail_reason := some reason, detail_certificate_id := none }] },
     { res with successful := res.successful + 1 })
  else
    (db, { res with failed := res.failed + 1 })

/-- The `bulk_resolve_conflicts` route (`ps1.py:1023-1171`), after the
permission check: 404 when the event is missing, otherwise a fold of
`processAction` over the batch. -/
def bulk_resolve_conflicts (db : DB) (event_id : Nat) (actor : Nat) (now : Nat)
    (actions : List BulkAction) : Except String (DB × BulkResolutionResponse) :=
  match eventFor db event_id with
  | none => Except.error "Event not found"
  | some _ =>
    let st := actions.foldl (processAction event_id actor now) (db, ⟨0, 0, []⟩)
    Except.ok (st.1,
      { total_actions := actions.length, successful := st.2.successful,
        failed := st.2.failed, details := st.2.details })

/-- Projection of a bulk-resolution outcome onto its response, for stating
concrete facts about the route's result. -/
def bulkRespOf (x : Except String (DB × BulkResolutionResponse)) :
    Option BulkResolutionResponse :=
  match x with
  | Except.ok p => some p.2
  | Except.error _ => none

/-- Projection of a bulk-resolution outcome onto the post-state. -/
def bulkDbOf (x : Except String (DB × BulkResolutionResponse)) : Option DB :=
  match x with
  | Except.ok p => some p.1
  | Except.error _ => none

/-! ## Theorems -/

/-- C1: if every certificate of the (event, student) pair is revoked and at
least one exists, the canonical status is INVALIDATED — whatever attendance
and registration rows also exist, since the revoked-certificate check comes
first in `_compute_status`. -/
theorem C1_revoked_certificate_invalidated (db : DB) (eid : Nat) (s : String)
    (hex : ∃ c ∈ db.certificates, (c.event_id == eid && c.student_prn == some s) = true)
    (hall : ∀ c ∈ db.certificates,
      (c.event_id == eid && c.student_prn == some s) = true → c.revoked = true) :
    (get_canonical_status db eid s).canonical_status = "INVALIDATED" := by
  have hfind : (db.certificates.find?
      (fun c => c.event_id == eid && c.student_prn == some s)).isSome := by
    rw [List.find?_isSome]; exact hex
  obtain ⟨c1, hc1⟩ := Option.isSome_iff_exists.mp hfind
  have hp := List.find?_some
    (p := fun c : Certificate => c.event_id == eid && c.student_prn == some s) hc1
  have hrev : c1.revoked = true := hall c1 (List.mem_of_find?_eq_some hc1) hp
  simp [get_canonical_status, certificateFor, hc1, compute_status, certIsRevoked, hrev]

/-- Store for the C1 witness: one revoked certificate together with a
registration and a live attendance row. -/
def C1db : DB :=
  { events := [{ id := 1, total_days := 1 }],
    tickets := [{ id := 1, event_id := 1, student_prn := "S1" }],
    attendances := [{ id := 1, ticket_id := 1, event_id := 1, student_prn := "S1",
                      scanned_at := some 120, day_number := some 1, scan_source := "qr_scan",
                      scanner_id := some 9, invalidated := false }],
    certificates := [{ id := 1, event_id := 1, student_prn := some "S1",
                       certificate_id := "C-1", issued_at := some 0, role_type := "attendee",
                       revoked := true, revoked_at := some 50, revoked_by := some 9,
                       revocation_reason := some "dup" }],
    audit_logs := [] }

/-- C1 witness: the revoked-only certificate situation with a registration and
a non-invalidated attendance still resolves to INVALIDATED. -/
theorem C1_revoked_certificate_invalidated_witness :
    ((∃ c ∈ C1db.certificates, (c.event_id == 1 && c.student_prn == some "S1") = true)
      ∧ (∀ c ∈ C1db.certificates,
          (c.event_id == 1 && c.student_prn == some "S1") = true → c.revoked = true)
      ∧ (activeAttendanceFor C1db 1 "S1").length = 1
      ∧ (ticketFor C1db 1 "S1").isSome = true)
    ∧ (get_canonical_status C1db 1 "S1").canonical_status = "INVALIDATED" :=
  ⟨by decide,
   C1_revoked_certificate_invalidated C1db 1 "S1" (by decide) (by decide)⟩

/-- The trust-score formula as §4.3 of the spec words it (spec-side definition
for the refinement claim C3): 100, minus 10 without registration, minus 30
without live attendance, minus 20/10/5 per HIGH/MEDIUM/LOW conflict, plus
`min(5 × qr_scan count, 20)`, clamped to [0, 100]. -/
def trust_score_formula (ticket : Option Ticket) (attendance : List Attendance)
    (conflicts : List Conflict) : Int :=
  max 0 (min 100 (100
    - (if ticket.isNone then 10 else 0)
    - (if attendance.isEmpty then 30 else 0)
    - 20 * (conflicts.countP (fun c => c.severity == "HIGH") : Int)
    - 10 * (conflicts.countP (fun c => c.severity == "MEDIUM") : Int)
    - 5 * (conflicts.countP (fun c => c.severity == "LOW") : Int)
    + min (5 * ((attendance.filter (fun a => a.scan_source == "qr_scan")).length : Int)) 20))

/-- The conflict-penalty loop subtracts 20 per HIGH, 10 per MEDIUM and 5 per
remaining conflict. -/
theorem foldl_severityPenalty (conflicts : List Conflict) (s : Int) :
    conflicts.foldl severityPenalty s =
      s - 20 * (conflicts.countP (fun c => c.severity == "HIGH") : Int)
        - 10 * (conflicts.countP (fun c => c.severity == "MEDIUM") : Int)
        - 5 * (conflicts.countP
            (fun c => !(c.severity == "HIGH") && !(c.severity == "MEDIUM")) : Int) := by
  induction conflicts generalizing s with
  | nil => simp
  | cons c t ih =>
    by_cases h1 : c.severity = "HIGH"
    · simp only [List.foldl_cons, severityPenalty, h1, List.countP_cons, ih]
      simp; ring
    · by_cases h2 : c.severity = "MEDIUM"
      · simp only [List.foldl_cons, severityPenalty, h2, List.countP_cons, ih]
        simp [h1]; ring
      · simp only [List.foldl_cons, severityPenalty, List.countP_cons, ih]
        simp [h1, h2]; ring

/-- When every severity is HIGH, MEDIUM or LOW, the "everything else" count of
the penalty loop is the LOW count. -/
theorem countP_other_eq_low (conflicts : List Conflict)
    (h : ∀ c ∈ conflicts, c.severity = "HIGH" ∨ c.severity = "MEDIUM" ∨ c.severity = "LOW") :
    conflicts.countP (fun c => !(c.severity == "HIGH") && !(c.severity == "MEDIUM"))
      = conflicts.countP (fun c => c.severity == "LOW") := by
  induction conflicts with
  | nil => rfl
  | cons c t ih =>
    have hc := h c (List.mem_cons_self c t)
    have ht := ih (fun x hx => h x (List.mem_cons_of_mem c hx))
    rcases hc with h1 | h1 | h1 <;> simp [List.countP_cons, h1, ht]

/-- C3: the Trust Scorer computes exactly the §4.3 formula, and the result is
clamped into [0, 100]. -/
theorem C3_trust_score_formula (ticket : Option Ticket) (attendance : List Attendance)
    (certificate : Option Certificate) (conflicts : List Conflict)
    (h : ∀ c ∈ conflicts, c.severity = "HIGH" ∨ c.severity = "MEDIUM" ∨ c.severity = "LOW") :
    compute_trust_score ticket attendance certificate conflicts
        = trust_score_formula ticket attendance conflicts
      ∧ 0 ≤ compute_trust_score ticket attendance certificate conflicts
      ∧ compute_trust_score ticket attendance certificate conflicts ≤ 100 := by
  refine ⟨?_, ?_, ?_⟩
  · by_cases he : attendance.isEmpty
    · have hA : attendance = [] := List.isEmpty_iff.mp he
      subst hA
      rcases ticket with _ | tk <;>
        simp [compute_trust_score, trust_score_formula, foldl_severityPenalty,
          countP_other_eq_low conflicts h] <;> ring_nf
    · rcases ticket with _ | tk <;>
        simp [compute_trust_score, trust_score_formula, foldl_severityPenalty,
          countP_other_eq_low conflicts h, he] <;> ring_nf
  · exact le_max_left 0 _
  · calc compute_trust_score ticket attendance certificate conflicts
        = max 0 (min 100 _) := rfl
      _ ≤ 100 := max_le (by norm_num) (min_le_left _ _)

/-- C3 witness: a concrete input (registration present, one qr_scan row, one
HIGH and one LOW conflict) evaluated through the theorem. -/
theorem C3_trust_score_formula_witness :
    (∀ c ∈ [Conflict.mk "CERTIFICATE_WITHOUT_ATTENDANCE" "HIGH" "m" "r",
            Conflict.mk "ATTENDANCE_WITHOUT_REGISTRATION" "LOW" "m" "r"],
        c.severity = "HIGH" ∨ c.severity = "MEDIUM" ∨ c.severity = "LOW")
    ∧ (compute_trust_score (some { id := 1, event_id := 1, student_prn := "S1" })
          [{ id := 1, ticket_id := 1, event_id := 1, student_prn := "S1",
             scanned_at := some 0, day_number := some 1, scan_source := "qr_scan",
             scanner_id := none, invalidated := false }] none
          [Conflict.mk "CERTIFICATE_WITHOUT_ATTENDANCE" "HIGH" "m" "r",
           Conflict.mk "ATTENDANCE_WITHOUT_REGISTRATION" "LOW" "m" "r"]
        = trust_score_formula (some { id := 1, event_id := 1, student_prn := "S1" })
          [{ id := 1, ticket_id := 1, event_id := 1, student_prn := "S1",
             scanned_at := some 0, day_number := some 1, scan_source := "qr_scan",
             scanner_id := none, invalidated := false }]
          [Conflict.mk "CERTIFICATE_WITHOUT_ATTENDANCE" "HIGH" "m" "r",
           Conflict.mk "ATTENDANCE_WITHOUT_REGISTRATION" "LOW" "m" "r"]
      ∧ 0 ≤ compute_trust_score (some { id := 1, event_id := 1, student_prn := "S1" })
          [{ id := 1, ticket_id := 1, event_id := 1, student_prn := "S1",
             scanned_at := some 0, day_number := some 1, scan_source := "qr_scan",
             scanner_id := none, invalidated := false }] none
          [Conflict.mk "CERTIFICATE_WITHOUT_ATTENDANCE" "HIGH" "m" "r",
           Conflict.mk "ATTENDANCE_WITHOUT_REGISTRATION" "LOW" "m" "r"]
      ∧ compute_trust_score (some { id := 1, event_id := 1, student_prn := "S1" })
          [{ id := 1, ticket_id := 1, event_id := 1, student_prn := "S1",
             scanned_at := some 0, day_number := some 1, scan_source := "qr_scan",
             scanner_id := none, invalidated := false }] none
          [Conflict.mk "CERTIFICATE_WITHOUT_ATTENDANCE" "HIGH" "m" "r",
           Conflict.mk "ATTENDANCE_WITHOUT_REGISTRATION" "LOW" "m" "r"]
        ≤ 100) :=
  ⟨by decide, C3_trust_score_formula _ _ _ _ (by decide)⟩

/-- C4: with an active certificate and no non-invalidated attendance, the
status is CERTIFIED, the conflicts contain CERTIFICATE_WITHOUT_ATTENDANCE at
severity HIGH, and the trust score is at most 80. -/
theorem C4_certificate_without_attendance (db : DB) (eid : Nat) (s : String)
    (c : Certificate)
    (hcert : certificateFor db eid s = some c)
    (hrev : c.revoked = false)
    (hnoatt : activeAttendanceFor db eid s = []) :
    (get_canonical_status db eid s).canonical_status = "CERTIFIED"
    ∧ (∃ k ∈ (get_canonical_status db eid s).conflicts,
        k.type = "CERTIFICATE_WITHOUT_ATTENDANCE" ∧ k.severity = "HIGH")
    ∧ (get_canonical_status db eid s).trust_score ≤ 80 := by
  rcases hticket : ticketFor db eid s with _ | tk <;>
    simp [get_canonical_status, hcert, hnoatt, hticket, compute_status,
      certIsRevoked, certIsActive, hrev, detect_conflicts, compute_trust_score,
      severityPenalty] <;> norm_num

/-- Active certificate of the C4 witness store. -/
def C4cert : Certificate :=
  { id := 1, event_id := 1, student_prn := some "S1", certificate_id := "C-1",
    issued_at := some 10, role_type := "attendee", revoked := false,
    revoked_at := none, revoked_by := none, revocation_reason := none }

/-- Store for the C4 witness: registration and active certificate, no
attendance at all. -/
def C4db : DB :=
  { events := [{ id := 1, total_days := 1 }],
    tickets := [{ id := 1, event_id := 1, student_prn := "S1" }],
    attendances := [],
    certificates := [C4cert],
    audit_logs := [] }

/-- C4 witness: the concrete store above satisfies the hypotheses and the
three conclusions. -/
theorem C4_certificate_without_attendance_witness :
    (certificateFor C4db 1 "S1" = some C4cert
      ∧ C4cert.revoked = false
      ∧ activeAttendanceFor C4db 1 "S1" = [])
    ∧ ((get_canonical_status C4db 1 "S1").canonical_status = "CERTIFIED"
      ∧ (∃ k ∈ (get_canonical_status C4db 1 "S1").conflicts,
          k.type = "CERTIFICATE_WITHOUT_ATTENDANCE" ∧ k.severity = "HIGH")
      ∧ (get_canonical_status C4db 1 "S1").trust_score ≤ 80) :=
  ⟨by decide,
   C4_certificate_without_attendance C4db 1 "S1" C4cert (by decide) (by decide) (by decide)⟩

/-- After updating the first row matching a `certificate_id`, the lookup by
that id finds the updated row. -/
theorem find?_revokeFirstByCid (certs : List Certificate) (cid : String)
    (now actor : Nat) (reason : String) (c : Certificate)
    (h : certs.find? (fun x => x.certificate_id == cid) = some c) :
    (revokeFirstByCid certs cid now actor reason).find?
        (fun x => x.certificate_id == cid) =
      some { c with revoked := true, revoked_at := some now, revoked_by := some actor,
                    revocation_reason := some reason } := by
  induction certs with
  | nil => simp at h
  | cons c0 rest ih =>
    by_cases h0 : c0.certificate_id = cid
    · rw [List.find?_cons_of_pos _ (by simp [h0])] at h
      injection h with h
      subst h
      simp [revokeFirstByCid, h0, List.find?_cons_of_pos]
    · rw [List.find?_cons_of_neg _ (by simp [h0])] at h
      simp only [revokeFirstByCid, if_neg (by simp [h0] : ¬(c0.certificate_id == cid) = true)]
      rw [List.find?_cons_of_neg _ (by simp [h0])]
      exact ih h

/-- C5: revoking a certificate succeeds once, stamping `revoked`/`revoked_at`;
a second revoke of the same certificate fails with the already-revoked error,
leaves the store untouched, and so `revoked_at` still carries the first
call's timestamp. -/
theorem C5_revoke_idempotence (db : DB) (cid r1 r2 : String)
    (actor a2 t1 t2 : Nat) (c : Certificate)
    (h1 : db.certificates.find? (fun x => x.certificate_id == cid) = some c)
    (h2 : c.revoked = false) :
    (revoke_certificate db cid r1 actor t1).2 =
        Except.ok { certificate_id := cid, revoked_at := some t1, reason := r1 }
    ∧ ((revoke_certificate db cid r1 actor t1).1).certificates.find?
        (fun x => x.certificate_id == cid) =
      some { c with revoked := true, revoked_at := some t1, revoked_by := some actor,
                    revocation_reason := some r1 }
    ∧ revoke_certificate (revoke_certificate db cid r1 actor t1).1 cid r2 a2 t2 =
        ((revoke_certificate db cid r1 actor t1).1,
         Except.error "Certificate is already revoked") := by
  have hfind := find?_revokeFirstByCid db.certificates cid t1 actor r1 c h1
  refine ⟨?_, ?_, ?_⟩
  · simp [revoke_certificate, h1, h2]
  · simp only [revoke_certificate, h1, h2]
    simpa using hfind
  · have hdb1 : (revoke_certificate db cid r1 actor t1).1.certificates =
        revokeFirstByCid db.certificates cid t1 actor r1 := by
      simp [revoke_certificate, h1, h2]
    rw [revoke_certificate, hdb1, hfind]
    simp

/-- Unrevoked certificate of the C5 witness store. -/
def C5cert : Certificate :=
  { id := 1, event_id := 1, student_prn := some "S1", certificate_id := "C-9",
    issued_at := some 10, role_type := "attendee", revoked := false,
    revoked_at := none, revoked_by := none, revocation_reason := none }

/-- Store for the C5 witness: one unrevoked certificate. -/
def C5db : DB :=
  { events := [{ id := 1, total_days := 1 }],
    tickets := [],
    attendances := [],
    certificates := [C5cert],
    audit_logs := [] }

/-- C5 witness: revoke twice on the concrete store; first call ok at t=100,
second call rejected with the store unchanged. -/
theorem C5_revoke_idempotence_witness :
    (C5db.certificates.find? (fun x => x.certificate_id == "C-9") = some C5cert
      ∧ C5cert.revoked = false)
    ∧ ((revoke_certificate C5db "C-9" "fraud" 7 100).2 =
        Except.ok { certificate_id := "C-9", revoked_at := some 100, reason := "fraud" }
      ∧ ((revoke_certificate C5db "C-9" "fraud" 7 100).1).certificates.find?
          (fun x => x.certificate_id == "C-9") =
        some { C5cert with revoked := true, revoked_at := some 100, revoked_by := some 7,
                           revocation_reason := some "fraud" }
      ∧ revoke_certificate (revoke_certificate C5db "C-9" "fraud" 7 100).1
          "C-9" "again" 8 200 =
        ((revoke_certificate C5db "C-9" "fraud" 7 100).1,
         Except.error "Certificate is already revoked")) :=
  ⟨by decide, C5_revoke_idempotence C5db "C-9" "fraud" "again" 7 8 100 200 C5cert
    (by decide) (by decide)⟩

/-- The `results` counters produced by one action step starting from zero. -/
def stepCounters (event_id actor now : Nat) (db : DB) (a : BulkAction) : BulkCounters :=
  (processAction event_id actor now (db, ⟨0, 0, []⟩) a).2

/-- The store produced by one action step (independent of the counters). -/
def stepStore (event_id actor now : Nat) (db : DB) (a : BulkAction) : DB :=
  (processAction event_id actor now (db, ⟨0, 0, []⟩) a).1

/-- One action step decomposes: the new store ignores the incoming counters,
and the counters are the incoming ones plus the step's own increments. -/
theorem processAction_decomp (event_id actor now : Nat) (db : DB)
    (res : BulkCounters) (a : BulkAction) :
    processAction event_id actor now (db, res) a =
      (stepStore event_id actor now db a,
       { successful := res.successful + (stepCounters event_id actor now db a).successful,
         failed := res.failed + (stepCounters event_id actor now db a).failed,
         details := res.details ++ (stepCounters event_id actor now db a).details }) := by
  unfold stepStore stepCounters processAction
  cases h1 : (a.action == "add_attendance") with
  | true =>
    simp only [h1, if_true]
    cases hT : ticketFor db event_id a.student_prn with
    | none => simp
    | some t =>
      cases hF : db.attendances.find? (attActiveP event_id a.student_prn) with
      | none => simp
      | some x => simp
  | false =>
    simp only [h1, Bool.false_eq_true, if_false]
    cases h2 : (a.action == "revoke_certificate") with
    | true =>
      simp only [h2, if_true]
      cases hC : db.certificates.find? (certActiveP event_id a.student_prn) with
      | none => simp
      | some c => simp
    | false =>
      simp only [h2, Bool.false_eq_true, if_false]
      cases h3 : (a.action == "ignore" || a.action == "manual_review") with
      | true => simp [h3]
      | false => simp [h3]

/-- Each step increments `successful + failed` by exactly one. -/
theorem stepCounters_sum_one (event_id actor now : Nat) (db : DB) (a : BulkAction) :
    (stepCounters event_id actor now db a).successful
      + (stepCounters event_id actor now db a).failed = 1 := by
  unfold stepCounters processAction
  cases h1 : (a.action == "add_attendance") with
  | true =>
    simp only [h1, if_true]
    cases hT : ticketFor db event_id a.student_prn with
    | none => simp
    | some t =>
      cases hF : db.attendances.find? (attActiveP event_id a.student_prn) with
      | none => simp
      | some x => simp
  | false =>
    simp only [h1, Bool.false_eq_true, if_false]
    cases h2 : (a.action == "revoke_certificate") with
    | true =>
      simp only [h2, if_true]
      cases hC : db.certificates.find? (certActiveP event_id a.student_prn) with
      | none => simp
      | some c => simp
    | false =>
      simp only [h2, Bool.false_eq_true, if_false]
      cases h3 : (a.action == "ignore" || a.action == "manual_review") with
      | true => simp [h3]
      | false => simp [h3]

/-- Each step appends at most one `details` entry, and any failed entry it
appends carries the missing-registration reason. -/
theorem stepCounters_details (event_id actor now : Nat) (db : DB) (a : BulkAction) :
    (stepCounters event_id actor now db a).details.length ≤ 1
    ∧ ∀ d ∈ (stepCounters event_id actor now db a).details,
        d.status = "failed" → d.reason = some "No registration found" := by
  unfold stepCounters processAction
  cases h1 : (a.action == "add_attendance") with
  | true =>
    simp only [h1, if_true]
    cases hT : ticketFor db event_id a.student_prn with
    | none => simp
    | some t =>
      cases hF : db.attendances.find? (attActiveP event_id a.student_prn) with
      | none => simp
      | some x => simp
  | false =>
    simp only [h1, Bool.false_eq_true, if_false]
    cases h2 : (a.action == "revoke_certificate") with
    | true =>
      simp only [h2, if_true]
      cases hC : db.certificates.find? (certActiveP event_id a.student_prn) with
      | none => simp
      | some c => simp
    | false =>
      simp only [h2, Bool.false_eq_true, if_false]
      cases h3 : (a.action == "ignore" || a.action == "manual_review") with
      | true => simp [h3]
      | false => simp [h3]

/-- The action loop decomposes like a single step: the final store ignores the
incoming counters and the counters accumulate. -/
theorem foldl_processAction_decomp (event_id actor now : Nat) (l : List BulkAction) :
    ∀ (db : DB) (res : BulkCounters),
      l.foldl (processAction event_id actor now) (db, res) =
        ((l.foldl (processAction event_id actor now) (db, ⟨0, 0, []⟩)).1,
         { successful := res.successful
             + (l.foldl (processAction event_id actor now) (db, ⟨0, 0, []⟩)).2.successful,
           failed := res.failed
             + (l.foldl (processAction event_id actor now) (db, ⟨0, 0, []⟩)).2.failed,
           details := res.details
             ++ (l.foldl (processAction event_id actor now) (db, ⟨0, 0, []⟩)).2.details }) := by
  induction l with
  | nil => intro db res; simp
  | cons a t ih =>
    intro db res
    rw [List.foldl_cons, List.foldl_cons, processAction_decomp,
      processAction_decomp event_id actor now db ⟨0, 0, []⟩ a,
      ih (stepStore event_id actor now db a)
        { successful := res.successful + (stepCounters event_id actor now db a).successful,
          failed := res.failed + (stepCounters event_id actor now db a).failed,
          details := res.details ++ (stepCounters event_id actor now db a).details },
      ih (stepStore event_id actor now db a)
        { successful := 0 + (stepCounters event_id actor now db a).successful,
          failed := 0 + (stepCounters event_id actor now db a).failed,
          details := [] ++ (stepCounters event_id actor now db a).details }]
    simp [Nat.add_assoc]

/-- Over any batch, `successful + failed` grows by exactly the batch length. -/
theorem foldl_processAction_count (event_id actor now : Nat) (l : List BulkAction) :
    ∀ (db : DB),
      (l.foldl (processAction event_id actor now) (db, ⟨0, 0, []⟩)).2.successful
        + (l.foldl (processAction event_id actor now) (db, ⟨0, 0, []⟩)).2.failed
      = l.length := by
  induction l with
  | nil => intro db; simp
  | cons a t ih =>
    intro db
    rw [List.foldl_cons, processAction_decomp,
      foldl_processAction_decomp event_id actor now t]
    have := stepCounters_sum_one event_id actor now db a
    have := ih (stepStore event_id actor now db a)
    simp only [List.length_cons]
    omega

/-- C10: every action of a batch lands in exactly one of the two counters, so
a successful bulk resolution always reports `successful + failed =
total_actions`. -/
theorem C10_bulk_counters_partition (db : DB) (event_id actor now : Nat)
    (actions : List BulkAction) (db' : DB) (resp : BulkResolutionResponse)
    (h : bulk_resolve_conflicts db event_id actor now actions = Except.ok (db', resp)) :
    resp.successful + resp.failed = resp.total_actions := by
  unfold bulk_resolve_conflicts at h
  rcases hev : eventFor db event_id with _ | ev
  · rw [hev] at h; exact absurd h (by simp)
  · rw [hev] at h
    simp only [Except.ok.injEq, Prod.mk.injEq] at h
    obtain ⟨-, hresp⟩ := h
    subst hresp
    simpa using foldl_processAction_count event_id actor now actions db

/-- Event row shared by the batch witnesses. -/
def Wev : Event := { id := 1, total_days := 1 }

/-- Store for the batch witnesses: event 1, a registration for S1, no
attendance, no certificates. -/
def Wdb : DB :=
  { events := [Wev],
    tickets := [{ id := 1, event_id := 1, student_prn := "S1" }],
    attendances := [],
    certificates := [],
    audit_logs := [] }

/-- Witness action: add attendance for S1. -/
def Wadd : BulkAction := { student_prn := "S1", action := "add_attendance", reason := none }

/-- Witness action: revoke a certificate S2 does not hold. -/
def Wrevoke : BulkAction :=
  { student_prn := "S2", action := "revoke_certificate", reason := some "dup" }

/-- Witness action: ignore for S1. -/
def Wignore : BulkAction := { student_prn := "S1", action := "ignore", reason := none }

/-- A three-action batch: add attendance for S1, revoke a certificate S2 does
not have, then ignore for S1. -/
def Wactions : List BulkAction := [Wadd, Wrevoke, Wignore]

/-- C10 witness: the three-action batch on the concrete store reports
`successful + failed = total_actions` (2 + 1 = 3). -/
theorem C10_bulk_counters_partition_witness :
    (∃ db' resp, bulk_resolve_conflicts Wdb 1 9 500 Wactions = Except.ok (db', resp)
      ∧ resp.successful + resp.failed = resp.total_actions
      ∧ resp.successful = 2 ∧ resp.failed = 1 ∧ resp.total_actions = 3) := by
  refine ⟨(Wactions.foldl (processAction 1 9 500) (Wdb, ⟨0, 0, []⟩)).1, _, rfl, ?_, ?_, ?_, ?_⟩
  · exact C10_bulk_counters_partition Wdb 1 9 500 Wactions _ _ rfl
  all_goals decide

/-- A `revoke_certificate` step that finds no active certificate only bumps
the failed counter and leaves the store untouched (`ps1.py:1125-1127`). -/
theorem processAction_revoke_missing (event_id actor now : Nat)
    (st : DB × BulkCounters) (a : BulkAction)
    (ha : a.action = "revoke_certificate")
    (h : st.1.certificates.find? (certActiveP event_id a.student_prn) = none) :
    processAction event_id actor now st a =
      (st.1, { st.2 with failed := st.2.failed + 1 }) := by
  unfold processAction
  rw [ha]
  simp [h]

/-- C2: a batch containing a failing `revoke_certificate` action (no active
certificate at that point) produces the same final store and the same details
as the batch without it, with the same success count and one more failure —
the failing item neither aborts nor rolls back the others. -/
theorem C2_batch_failure_independent (db : DB) (event_id actor now : Nat)
    (l1 l2 : List BulkAction) (a : BulkAction) (ev : Event)
    (hev : eventFor db event_id = some ev)
    (ha : a.action = "revoke_certificate")
    (hnone : ((l1.foldl (processAction event_id actor now)
        (db, ⟨0, 0, []⟩)).1).certificates.find?
        (certActiveP event_id a.student_prn) = none) :
    ∃ db1 resp1 resp2,
      bulk_resolve_conflicts db event_id actor now (l1 ++ a :: l2) =
        Except.ok (db1, resp1)
      ∧ bulk_resolve_conflicts db event_id actor now (l1 ++ l2) =
        Except.ok (db1, resp2)
      ∧ resp1.successful = resp2.successful
      ∧ resp1.failed = resp2.failed + 1
      ∧ resp1.details = resp2.details := by
  have hstep := processAction_revoke_missing event_id actor now
    (l1.foldl (processAction event_id actor now) (db, ⟨0, 0, []⟩)) a ha hnone
  have hfold1 : (l1 ++ a :: l2).foldl (processAction event_id actor now)
      (db, ⟨0, 0, []⟩) =
      ((l2.foldl (processAction event_id actor now)
          ((l1.foldl (processAction event_id actor now) (db, ⟨0, 0, []⟩)).1,
           ⟨0, 0, []⟩)).1,
       { successful := (l1.foldl (processAction event_id actor now)
             (db, ⟨0, 0, []⟩)).2.successful
           + (l2.foldl (processAction event_id actor now)
               ((l1.foldl (processAction event_id actor now) (db, ⟨0, 0, []⟩)).1,
                ⟨0, 0, []⟩)).2.successful,
         failed := ((l1.foldl (processAction event_id actor now)
             (db, ⟨0, 0, []⟩)).2.failed + 1)
           + (l2.foldl (processAction event_id actor now)
               ((l1.foldl (processAction event_id actor now) (db, ⟨0, 0, []⟩)).1,
                ⟨0, 0, []⟩)).2.failed,
         details := (l1.foldl (processAction event_id actor now)
             (db, ⟨0, 0, []⟩)).2.details
           ++ (l2.foldl (processAction event_id actor now)
               ((l1.foldl (processAction event_id actor now) (db, ⟨0, 0, []⟩)).1,
                ⟨0, 0, []⟩)).2.details }) := by
    rw [List.foldl_append, List.foldl_cons, hstep,
      foldl_processAction_decomp event_id actor now l2]
  have hfold2 : (l1 ++ l2).foldl (processAction event_id actor now)
      (db, ⟨0, 0, []⟩) =
      ((l2.foldl (processAction event_id actor now)
          ((l1.foldl (processAction event_id actor now) (db, ⟨0, 0, []⟩)).1,
           ⟨0, 0, []⟩)).1,
       { successful := (l1.foldl (processAction event_id actor now)
             (db, ⟨0, 0, []⟩)).2.successful
           + (l2.foldl (processAction event_id actor now)
               ((l1.foldl (processAction event_id actor now) (db, ⟨0, 0, []⟩)).1,
                ⟨0, 0, []⟩)).2.successful,
         failed := (l1.foldl (processAction event_id actor now)
             (db, ⟨0, 0, []⟩)).2.failed
           + (l2.foldl (processAction event_id actor now)
               ((l1.foldl (processAction event_id actor now) (db, ⟨0, 0, []⟩)).1,
                ⟨0, 0, []⟩)).2.failed,
         details := (l1.foldl (processAction event_id actor now)
             (db, ⟨0, 0, []⟩)).2.details
           ++ (l2.foldl (processAction event_id actor now)
               ((l1.foldl (processAction event_id actor now) (db, ⟨0, 0, []⟩)).1,
                ⟨0, 0, []⟩)).2.details }) := by
    rw [List.foldl_append,
      show l1.foldl (processAction event_id actor now) (db, ⟨0, 0, []⟩) =
        ((l1.foldl (processAction event_id actor now) (db, ⟨0, 0, []⟩)).1,
         (l1.foldl (processAction event_id actor now) (db, ⟨0, 0, []⟩)).2) from rfl,
      foldl_processAction_decomp event_id actor now l2]
  have hr1 : bulk_resolve_conflicts db event_id actor now (l1 ++ a :: l2) =
      Except.ok ((l2.foldl (processAction event_id actor now)
          ((l1.foldl (processAction event_id actor now) (db, ⟨0, 0, []⟩)).1,
           ⟨0, 0, []⟩)).1,
        { total_actions := (l1 ++ a :: l2).length,
          successful := (l1.foldl (processAction event_id actor now)
              (db, ⟨0, 0, []⟩)).2.successful
            + (l2.foldl (processAction event_id actor now)
                ((l1.foldl (processAction event_id actor now) (db, ⟨0, 0, []⟩)).1,
                 ⟨0, 0, []⟩)).2.successful,
          failed := ((l1.foldl (processAction event_id actor now)
              (db, ⟨0, 0, []⟩)).2.failed + 1)
            + (l2.foldl (processAction event_id actor now)
                ((l1.foldl (processAction event_id actor now) (db, ⟨0, 0, []⟩)).1,
                 ⟨0, 0, []⟩)).2.failed,
          details := (l1.foldl (processAction event_id actor now)
              (db, ⟨0, 0, []⟩)).2.details
            ++ (l2.foldl (processAction event_id actor now)
                ((l1.foldl (processAction event_id actor now) (db, ⟨0, 0, []⟩)).1,
                 ⟨0, 0, []⟩)).2.details }) := by
    unfold bulk_resolve_conflicts
    simp only [hev, hfold1]
  have hr2 : bulk_resolve_conflicts db event_id actor now (l1 ++ l2) =
      Except.ok ((l2.foldl (processAction event_id actor now)
          ((l1.foldl (processAction event_id actor now) (db, ⟨0, 0, []⟩)).1,
           ⟨0, 0, []⟩)).1,
        { total_actions := (l1 ++ l2).length,
          successful := (l1.foldl (processAction event_id actor now)
              (db, ⟨0, 0, []⟩)).2.successful
            + (l2.foldl (processAction event_id actor now)
                ((l1.foldl (processAction event_id actor now) (db, ⟨0, 0, []⟩)).1,
                 ⟨0, 0, []⟩)).2.successful,
          failed := (l1.foldl (processAction event_id actor now)
              (db, ⟨0, 0, []⟩)).2.failed
            + (l2.foldl (processAction event_id actor now)
                ((l1.foldl (processAction event_id actor now) (db, ⟨0, 0, []⟩)).1,
                 ⟨0, 0, []⟩)).2.failed,
          details := (l1.foldl (processAction event_id actor now)
              (db, ⟨0, 0, []⟩)).2.details
            ++ (l2.foldl (processAction event_id actor now)
                ((l1.foldl (processAction event_id actor now) (db, ⟨0, 0, []⟩)).1,
                 ⟨0, 0, []⟩)).2.details }) := by
    unfold bulk_resolve_conflicts
    simp only [hev, hfold2]
  exact ⟨_, _, _, hr1, hr2, rfl, by simp [Nat.add_right_comm], rfl⟩

/-- C2 witness: on the concrete store, the 3-action batch (add attendance for
S1, revoke a certificate S2 does not hold, ignore for S1) reports
`successful = 2, failed = 1`, and the final store carries S1's new attendance
row and the audit rows of actions 1 and 3. -/
theorem C2_batch_failure_independent_witness :
    (eventFor Wdb 1 = some Wev
      ∧ Wrevoke.action = "revoke_certificate"
      ∧ (([Wadd].foldl (processAction 1 9 500)
          (Wdb, ⟨0, 0, []⟩)).1).certificates.find?
          (certActiveP 1 Wrevoke.student_prn) = none)
    ∧ (∃ db1 resp1 resp2,
        bulk_resolve_conflicts Wdb 1 9 500 ([Wadd] ++ Wrevoke :: [Wignore]) =
          Except.ok (db1, resp1)
        ∧ bulk_resolve_conflicts Wdb 1 9 500 ([Wadd] ++ [Wignore]) =
          Except.ok (db1, resp2)
        ∧ resp1.successful = resp2.successful
        ∧ resp1.failed = resp2.failed + 1
        ∧ resp1.details = resp2.details)
    ∧ (bulkRespOf (bulk_resolve_conflicts Wdb 1 9 500 Wactions)).map
        (fun r => (r.total_actions, r.successful, r.failed)) = some (3, 2, 1)
    ∧ (bulkDbOf (bulk_resolve_conflicts Wdb 1 9 500 Wactions)).map
        (fun d => ((activeAttendanceFor d 1 "S1").map
            (fun x => (x.scan_source, x.day_number)),
          d.audit_logs.map (fun g => g.action_type))) =
      some ([("admin_override", some 1)], ["bulk_attendance_added", "bulk_ignore"]) :=
  ⟨by decide,
   C2_batch_failure_independent Wdb 1 9 500 [Wadd] [Wignore] Wrevoke
     Wev (by decide) (by decide) (by decide),
   by decide, by decide⟩

/-- The action loop appends at most one details entry per action, and every
failed entry it ever appends carries a reason. -/
theorem foldl_processAction_details (event_id actor now : Nat) (l : List BulkAction) :
    ∀ db : DB,
      (l.foldl (processAction event_id actor now) (db, ⟨0, 0, []⟩)).2.details.length
          ≤ l.length
      ∧ ∀ d ∈ (l.foldl (processAction event_id actor now) (db, ⟨0, 0, []⟩)).2.details,
          d.status = "failed" → d.reason = some "No registration found" := by
  induction l with
  | nil => intro db; simp
  | cons a t ih =>
    intro db
    rw [List.foldl_cons, processAction_decomp,
      foldl_processAction_decomp event_id actor now t]
    obtain ⟨hlen, hmem⟩ := stepCounters_details event_id actor now db a
    obtain ⟨hlen2, hmem2⟩ := ih (stepStore event_id actor now db a)
    constructor
    · simp only [List.length_append, List.length_cons, List.length_nil]
      omega
    · intro d hd hds
      simp only [List.nil_append, List.mem_append] at hd
      rcases hd with hd | hd
      · exact hmem d hd hds
      · exact hmem2 d hd hds

/-- C7 (amended): `details[]` does not enumerate every action — it carries at
most one entry per action (failed `revoke_certificate`, no-op `add_attendance`
successes, `ignore`/`manual_review` and unknown actions append none), and
every failed entry present does carry its failure reason. -/
theorem C7_details_partial (db : DB) (event_id actor now : Nat)
    (actions : List BulkAction) (db' : DB) (resp : BulkResolutionResponse)
    (h : bulk_resolve_conflicts db event_id actor now actions = Except.ok (db', resp)) :
    resp.details.length ≤ resp.total_actions
    ∧ ∀ d ∈ resp.details, d.status = "failed" → d.reason.isSome := by
  unfold bulk_resolve_conflicts at h
  rcases hev : eventFor db event_id with _ | ev
  · rw [hev] at h; exact absurd h (by simp)
  · rw [hev] at h
    simp only [Except.ok.injEq, Prod.mk.injEq] at h
    obtain ⟨-, hresp⟩ := h
    subst hresp
    obtain ⟨hlen, hmem⟩ := foldl_processAction_details event_id actor now actions db
    exact ⟨hlen, fun d hd hds => by rw [hmem d hd hds]; rfl⟩

/-- C7 counterexample: one failing `revoke_certificate` action yields
`total_actions = 1, failed = 1` but an empty `details` list — so `details[]`
does not have one entry per action and the failure's reason is nowhere. -/
theorem C7_details_counterexample :
    (bulkRespOf (bulk_resolve_conflicts Wdb 1 9 500
        [{ student_prn := "S2", action := "revoke_certificate", reason := none }])).map
      (fun r => (r.total_actions, r.failed, r.details.length)) = some (1, 1, 0) := by
  decide

/-- C7 witness: the three-action batch of the concrete store satisfies the
amended bounds (1 = details length ≤ 3, and its single failed-status check
holds vacuously since the only entry is a success). -/
theorem C7_details_partial_witness :
    (∃ db' resp, bulk_resolve_conflicts Wdb 1 9 500 Wactions = Except.ok (db', resp)
      ∧ resp.details.length ≤ resp.total_actions
      ∧ ∀ d ∈ resp.details, d.status = "failed" → d.reason.isSome) := by
  refine ⟨(Wactions.foldl (processAction 1 9 500) (Wdb, ⟨0, 0, []⟩)).1, _, rfl, ?_⟩
  exact C7_details_partial Wdb 1 9 500 Wactions _ _ rfl

/-- Store after the `add_attendance` branch inserts the student's day-1
override row and its audit entry (the `db.add` calls of `ps1.py:1096-1113`). -/
def addAttendanceStore (db : DB) (eid actor now : Nat) (s : String) (r : Option String)
    (t : Ticket) : DB :=
  { db with
    attendances := db.attendances ++
      [{ id := newAttendanceId db, ticket_id := t.id, event_id := eid,
         student_prn := s, scanned_at := some now, day_number := some 1,
         scan_source := "admin_override", scanner_id := some actor,
         invalidated := false }],
    audit_logs := db.audit_logs ++
      [{ event_id := eid, user_id := actor, action_type := "bulk_attendance_added",
         detail_student_prn := some s, detail_reason := some (effectiveReason r),
         detail_certificate_id := none }] }

/-- C9: for a registered student with no live attendance and no certificate, a
one-action `add_attendance` batch succeeds, creates an `admin_override` day-1
attendance row, and a following `get_canonical_status` reports
ATTENDED_NO_CERTIFICATE with `days_attended = 1`. -/
theorem C9_add_attendance_round_trip (db : DB) (eid actor now : Nat) (s : String)
    (r : Option String) (ev : Event) (t : Ticket)
    (hev : eventFor db eid = some ev)
    (ht : ticketFor db eid s = some t)
    (hnoatt : activeAttendanceFor db eid s = [])
    (hnocert : certificateFor db eid s = none) :
    ∃ db' resp,
      bulk_resolve_conflicts db eid actor now
          [{ student_prn := s, action := "add_attendance", reason := r }] =
        Except.ok (db', resp)
      ∧ resp.successful = 1
      ∧ (activeAttendanceFor db' eid s).map (fun x => (x.scan_source, x.day_number))
          = [("admin_override", some 1)]
      ∧ (get_canonical_status db' eid s).canonical_status = "ATTENDED_NO_CERTIFICATE"
      ∧ (get_canonical_status db' eid s).days_attended = 1 := by
  have hfindnone : db.attendances.find? (attActiveP eid s) = none := by
    rw [List.find?_eq_none]
    intro x hx
    exact (List.filter_eq_nil_iff.mp hnoatt) x hx
  have hstep : processAction eid actor now (db, ⟨0, 0, []⟩)
      { student_prn := s, action := "add_attendance", reason := r } =
      (addAttendanceStore db eid actor now s r t,
       ⟨1, 0, [{ student_prn := s, action := some "add_attendance",
                 status := "success", reason := none }]⟩) := by
    unfold processAction addAttendanceStore
    simp only [ht, hfindnone]
    rfl
  have hatt : activeAttendanceFor (addAttendanceStore db eid actor now s r t) eid s =
      [{ id := newAttendanceId db, ticket_id := t.id, event_id := eid,
         student_prn := s, scanned_at := some now, day_number := some 1,
         scan_source := "admin_override", scanner_id := some actor,
         invalidated := false }] := by
    unfold activeAttendanceFor at hnoatt
    unfold activeAttendanceFor addAttendanceStore
    rw [List.filter_append, hnoatt]
    simp [attActiveP]
  have hcert2 : certificateFor (addAttendanceStore db eid actor now s r t) eid s = none :=
    hnocert
  have hev2 : eventFor (addAttendanceStore db eid actor now s r t) eid = some ev := hev
  have ht2 : ticketFor (addAttendanceStore db eid actor now s r t) eid s = some t := ht
  refine ⟨addAttendanceStore db eid actor now s r t,
    ⟨1, 1, 0, [{ student_prn := s, action := some "add_attendance",
                 status := "success", reason := none }]⟩, ?_, rfl, ?_, ?_, ?_⟩
  · unfold bulk_resolve_conflicts
    simp only [hev, List.foldl_cons, List.foldl_nil, hstep]
    rfl
  all_goals
    simp [get_canonical_status, hatt, hcert2, hev2, ht2, compute_status,
      certIsRevoked, certIsActive, distinctDayCount, ite_self]

/-- C9 witness: the concrete store (event 1, registered S1, nothing else) run
through the one-action batch and re-queried. -/
theorem C9_add_attendance_round_trip_witness :
    (eventFor Wdb 1 = some Wev
      ∧ ticketFor Wdb 1 "S1" = some { id := 1, event_id := 1, student_prn := "S1" }
      ∧ activeAttendanceFor Wdb 1 "S1" = []
      ∧ certificateFor Wdb 1 "S1" = none)
    ∧ (∃ db' resp,
        bulk_resolve_conflicts Wdb 1 9 500
            [{ student_prn := "S1", action := "add_attendance", reason := none }] =
          Except.ok (db', resp)
        ∧ resp.successful = 1
        ∧ (activeAttendanceFor db' 1 "S1").map (fun x => (x.scan_source, x.day_number))
            = [("admin_override", some 1)]
        ∧ (get_canonical_status db' 1 "S1").canonical_status = "ATTENDED_NO_CERTIFICATE"
        ∧ (get_canonical_status db' 1 "S1").days_attended = 1) :=
  ⟨by decide,
   C9_add_attendance_round_trip Wdb 1 9 500 "S1" none Wev
     { id := 1, event_id := 1, student_prn := "S1" }
     (by decide) (by decide) (by decide) (by decide)⟩

/-- Membership in the first-occurrence fold: an element is in the accumulated
list iff it was in the accumulator or in the input. -/
theorem mem_distinctFirst_foldl {α : Type} [DecidableEq α] (l : List α) :
    ∀ (acc : List α) (x : α),
      x ∈ l.foldl (fun acc y => if y ∈ acc then acc else acc ++ [y]) acc
        ↔ x ∈ acc ∨ x ∈ l := by
  induction l with
  | nil => intro acc x; simp
  | cons a t ih =>
    intro acc x
    rw [List.foldl_cons]
    by_cases h : a ∈ acc
    · rw [if_pos h, ih]
      constructor
      · rintro (hx | hx)
        · exact Or.inl hx
        · exact Or.inr (List.mem_cons_of_mem a hx)
      · rintro (hx | hx)
        · exact Or.inl hx
        · rcases List.mem_cons.mp hx with rfl | hx
          · exact Or.inl h
          · exact Or.inr hx
    · rw [if_neg h, ih]
      simp only [List.mem_append, List.mem_singleton, List.mem_cons]
      tauto

/-- `distinctFirst` keeps exactly the elements of its input. -/
theorem mem_distinctFirst {α : Type} [DecidableEq α] (l : List α) (x : α) :
    x ∈ distinctFirst l ↔ x ∈ l := by
  unfold distinctFirst
  rw [mem_distinctFirst_foldl]
  simp

/-- The GROUP BY count for a student equals the number of that student's
certificate rows for the event. -/
theorem count_prn_filterMap (l : List Certificate) (eid : Nat) (p : String) :
    ((l.filter (fun c => c.event_id == eid && c.student_prn.isSome)).filterMap
        (fun c => c.student_prn)).count p
      = (l.filter (fun c => c.event_id == eid && c.student_prn == some p)).length := by
  induction l with
  | nil => rfl
  | cons c t ih =>
    by_cases he : (c.event_id == eid) = true
    · rcases hp : c.student_prn with _ | q
      · simp [List.filter_cons, he, hp, ih]
      · by_cases hq : q = p
        · subst hq
          simp [List.filter_cons, he, hp, List.filterMap_cons, List.count_cons, ih]
        · simp [List.filter_cons, he, hp, List.filterMap_cons, List.count_cons, hq, ih]
    · simp [List.filter_cons, he, ih]

/-- `dupCount` agrees with the per-student certificate query. -/
theorem dupCount_eq_length (db : DB) (eid : Nat) (p : String) :
    dupCount db eid p = (certsOfStudent db eid p).length := by
  unfold dupCount eventCertsWithStudent certsOfStudent
  exact count_prn_filterMap db.certificates eid p

/-- C6 (amended): the duplicate-certificates rule alerts on a student iff that
student holds more than one certificate row for the event — counting revoked
rows too, with role filtering done only through the null student id — and each
alert lists all of that student's certificate ids (revoked included). -/
theorem C6_duplicate_certificates_amended (db : DB) (eid : Nat) (p : String) :
    (((detect_duplicate_certificates db eid).any (fun a => a.student_prn == p)) = true
      ↔ 1 < (certsOfStudent db eid p).length)
    ∧ ∀ a ∈ detect_duplicate_certificates db eid,
        a.type = "DUPLICATE_CERTIFICATE" ∧ a.severity = "HIGH"
        ∧ a.certificate_ids =
            (certsOfStudent db eid a.student_prn).map (fun c => c.certificate_id) := by
  constructor
  · rw [List.any_eq_true]
    constructor
    · rintro ⟨a, ha, hap⟩
      unfold detect_duplicate_certificates at ha
      rw [List.mem_map] at ha
      obtain ⟨q, hq, rfl⟩ := ha
      rw [List.mem_filter] at hq
      obtain ⟨-, hq2⟩ := hq
      have hqp : q = p := by simpa using hap
      subst hqp
      rw [dupCount_eq_length] at hq2
      simpa using hq2
    · intro hlen
      have hcount : 0 < dupCount db eid p := by
        rw [dupCount_eq_length]; omega
      have hmem : p ∈ ((eventCertsWithStudent db eid).filterMap
          (fun c => c.student_prn)) := by
        rw [← List.count_pos_iff]
        exact hcount
      have hdf : p ∈ distinctFirst ((eventCertsWithStudent db eid).filterMap
          (fun c => c.student_prn)) := (mem_distinctFirst _ p).mpr hmem
      refine ⟨{ type := "DUPLICATE_CERTIFICATE", severity := "HIGH", student_prn := p,
                description := s!"Student has {dupCount db eid p} certificates for same event",
                certificate_ids := (certsOfStudent db eid p).map (fun c => c.certificate_id),
                minute := none, record_count := dupCount db eid p }, ?_, by simp⟩
      unfold detect_duplicate_certificates
      refine List.mem_map.mpr ⟨p, ?_, rfl⟩
      rw [List.mem_filter]
      refine ⟨hdf, ?_⟩
      rw [dupCount_eq_length]
      simpa using hlen
  · intro a ha
    unfold detect_duplicate_certificates at ha
    rw [List.mem_map] at ha
    obtain ⟨q, hq, rfl⟩ := ha
    exact ⟨rfl, rfl, rfl⟩

/-- Certificates of the C6 counterexample store: one active and one revoked
attendee certificate for the same student S1 at event 1. -/
def C6db : DB :=
  { events := [{ id := 1, total_days := 1 }],
    tickets := [],
    attendances := [],
    certificates :=
      [{ id := 1, event_id := 1, student_prn := some "S1", certificate_id := "C-1",
         issued_at := some 10, role_type := "attendee", revoked := false,
         revoked_at := none, revoked_by := none, revocation_reason := none },
       { id := 2, event_id := 1, student_prn := some "S1", certificate_id := "C-2",
         issued_at := some 11, role_type := "attendee", revoked := true,
         revoked_at := some 20, revoked_by := some 9, revocation_reason := some "dup" }],
    audit_logs := [] }

/-- C6 counterexample: S1 holds exactly one active attendee certificate (the
other is revoked), yet the rule still emits a DUPLICATE_CERTIFICATE alert for
S1 listing both ids — the claim's "active (non-revoked)" grouping does not
match the code, which never filters on `revoked`. -/
theorem C6_duplicate_certificates_counterexample :
    ((C6db.certificates.filter (fun c => c.event_id == 1 && c.student_prn == some "S1"
        && c.revoked == false && c.role_type == "attendee")).length = 1)
    ∧ (detect_duplicate_certificates C6db 1).any
        (fun a => a.student_prn == "S1") = true
    ∧ (detect_duplicate_certificates C6db 1).map (fun a => a.certificate_ids)
        = [["C-1", "C-2"]] := by
  decide

/-- C6 amended-claim witness: the amended rule evaluated on the concrete
two-certificate store — S1 is flagged since it holds two rows (one revoked). -/
theorem C6_duplicate_certificates_amended_witness :
    (((detect_duplicate_certificates C6db 1).any (fun a => a.student_prn == "S1")) = true
      ↔ 1 < (certsOfStudent C6db 1 "S1").length)
    ∧ ∀ a ∈ detect_duplicate_certificates C6db 1,
        a.type = "DUPLICATE_CERTIFICATE" ∧ a.severity = "HIGH"
        ∧ a.certificate_ids =
            (certsOfStudent C6db 1 a.student_prn).map (fun c => c.certificate_id) :=
  C6_duplicate_certificates_amended C6db 1 "S1"

/-- Fifteen same-minute bulk rows for the C8 boundary check. -/
def C8row (i : Nat) : Attendance :=
  { id := i, ticket_id := 0, event_id := 1, student_prn := "P", scanned_at := some 65,
    day_number := some 1, scan_source := "bulk_upload", scanner_id := none,
    invalidated := false }

/-- Store with 15 bulk-upload rows in the same calendar minute. -/
def C8db : DB :=
  { events := [{ id := 1, total_days := 1 }],
    tickets := [],
    attendances := (List.range 15).map C8row,
    certificates := [],
    audit_logs := [] }

/-- C8: the bulk-anomaly rule alerts on a minute bucket iff that bucket holds
strictly more than 100 bulk-upload rows (each alert typed BULK_UPLOAD_ANOMALY
at severity LOW), and in particular 15 rows in one minute produce no alert. -/
theorem C8_bulk_anomaly_threshold :
    (∀ (db : DB) (eid m : Nat),
      (((detect_bulk_anomalies db eid).any (fun a => a.minute == some m)) = true
        ↔ 100 < (minuteBucket (bulkUploadsFor db eid) m).length)
      ∧ ∀ a ∈ detect_bulk_anomalies db eid,
          a.type = "BULK_UPLOAD_ANOMALY" ∧ a.severity = "LOW")
    ∧ detect_bulk_anomalies C8db 1 = [] := by
  constructor
  · intro db eid m
    constructor
    · rw [List.any_eq_true]
      constructor
      · rintro ⟨a, ha, hap⟩
        unfold detect_bulk_anomalies at ha
        rw [List.mem_filterMap] at ha
        obtain ⟨k, hk, hfk⟩ := ha
        by_cases hc : 100 < (minuteBucket (bulkUploadsFor db eid) k).length
        · rw [if_pos hc] at hfk
          obtain rfl := Option.some.inj hfk
          have : k = m := by simpa using hap
          subst this
          exact hc
        · rw [if_neg hc] at hfk
          exact absurd hfk (by simp)
      · intro hlen
        have hne : (minuteBucket (bulkUploadsFor db eid) m) ≠ [] := by
          intro hnil
          rw [hnil] at hlen
          simp at hlen
        obtain ⟨x, hx⟩ := List.exists_mem_of_ne_nil _ hne
        rw [minuteBucket, List.mem_filter] at hx
        obtain ⟨hx1, hx2⟩ := hx
        have hxm : x.scanned_at.map minuteKey = some m := by simpa using hx2
        have hmk : m ∈ (bulkUploadsFor db eid).filterMap
            (fun a => a.scanned_at.map minuteKey) := by
          rw [List.mem_filterMap]
          exact ⟨x, hx1, hxm⟩
        have hdf : m ∈ distinctFirst ((bulkUploadsFor db eid).filterMap
            (fun a => a.scanned_at.map minuteKey)) :=
          (mem_distinctFirst _ m).mpr hmk
        refine ⟨{ type := "BULK_UPLOAD_ANOMALY", severity := "LOW", student_prn := "N/A",
                  description := s!"Bulk upload of {(minuteBucket (bulkUploadsFor db eid) m).length} records in 1 minute",
                  certificate_ids := [], minute := some m,
                  record_count := (minuteBucket (bulkUploadsFor db eid) m).length },
                ?_, by simp⟩
        unfold detect_bulk_anomalies
        rw [List.mem_filterMap]
        exact ⟨m, hdf, by rw [if_pos hlen]⟩
    · intro a ha
      unfold detect_bulk_anomalies at ha
      rw [List.mem_filterMap] at ha
      obtain ⟨k, hk, hfk⟩ := ha
      by_cases hc : 100 < (minuteBucket (bulkUploadsFor db eid) k).length
      · rw [if_pos hc] at hfk
        obtain rfl := Option.some.inj hfk
        exact ⟨rfl, rfl⟩
      · rw [if_neg hc] at hfk
        exact absurd hfk (by simp)
  · decide

/-- C8 witness: the threshold iff evaluated at the 15-row store and its
minute bucket (minute 1), plus the no-alert fact for that store. -/
theorem C8_bulk_anomaly_threshold_witness :
    (((detect_bulk_anomalies C8db 1).any (fun a => a.minute == some 1)) = true
      ↔ 100 < (minuteBucket (bulkUploadsFor C8db 1) 1).length)
    ∧ detect_bulk_anomalies C8db 1 = [] :=
  ⟨(C8_bulk_anomaly_threshold.1 C8db 1 1).1, C8_bulk_anomaly_threshold.2⟩

end UniPass
